import Mathlib

/-!
Verification development for the gonka-tools monitoring/alerting core.

The Python sources (gonka_tools/monitor.py, gonka_tools/analytics.py,
scripts/telegram_bot.py) are shallowly embedded below: pure computations
become Lean functions, Python floats are modelled as rationals (`Rat`),
exceptions become `Option`/`Except` or explicit outcome flags, and the
stateful pieces (the cooldown map, the earnings ledger, the SSH session
lifecycle) are modelled by explicit state passing.
-/

/-! ## Shared helpers: Python numeric parsing and formatting -/

/-- Accumulate a list of decimal digit characters into a natural number. -/
def digitsToNat (cs : List Char) : Nat :=
  cs.foldl (fun a c => a * 10 + (c.toNat - 48)) 0

/-- Strip leading and trailing whitespace from a character list. -/
def stripChars (cs : List Char) : List Char :=
  ((cs.dropWhile Char.isWhitespace).reverse.dropWhile Char.isWhitespace).reverse

/-- Model of Python `str.strip()` (and of the whitespace stripping that
`float()` performs on its argument). -/
def pyStrip (s : String) : String := String.mk (stripChars s.data)

/-- Model of the Python builtin `float()` applied to a string, restricted to
optional-sign plain decimal literals (digits, an optional single decimal
point, at least one digit overall); leading/trailing whitespace is stripped
as `float()` does.  Exponent forms, `inf` and `nan` never occur in the
probe outputs this repository parses, so they are not modelled: on any
other input the result is `none`, standing for the `ValueError` that
`float()` raises. -/
def pyFloat? (s : String) : Option Rat :=
  let cs := stripChars s.data
  let (sgn, rest) : Int × List Char :=
    match cs with
    | '-' :: t => (-1, t)
    | '+' :: t => (1, t)
    | t => (1, t)
  let intPart := rest.takeWhile (fun c => c ≠ '.')
  let dotPart := rest.dropWhile (fun c => c ≠ '.')
  let fracPart :=
    match dotPart with
    | [] => some []
    | '.' :: f => if f.all Char.isDigit then some f else none
    | _ => none
  match fracPart with
  | none => none
  | some frac =>
    if intPart.all Char.isDigit ∧ (intPart ≠ [] ∨ frac ≠ []) then
      some (mkRat (sgn * digitsToNat (intPart ++ frac)) (10 ^ frac.length))
    else
      none

/-- Render a nonnegative tenth-scaled integer as a fixed one-decimal string. -/
def fmt1Nat (n : Nat) : String :=
  toString (n / 10) ++ "." ++ toString (n % 10)

/-- Round to the nearest integer, ties to even (the rounding used by Python
fixed-point formatting on exactly representable ties). -/
def roundHalfToEven (q : Rat) : Int :=
  let f := ⌊q⌋
  if q - f < 1 / 2 then f
  else if 1 / 2 < q - f then f + 1
  else if 2 ∣ f then f else f + 1

/-- Model of the Python format specifier `.1f` on our rational model of
floats: one digit after the decimal point, ties to even. -/
def fmt1 (q : Rat) : String :=
  let n := roundHalfToEven (q * 10)
  if n < 0 then "-" ++ fmt1Nat n.natAbs else fmt1Nat n.natAbs

/-- Model of Python `str()` on a float whose value needs at most one decimal
digit (the only values whose rendering any claim inspects); such values
print exactly as their one-decimal fixed-point form. -/
def pyFloatStr (q : Rat) : String := fmt1 q

/-- Model of the Python idiom `x or default` on an optional string: `None`
and the empty string are falsy, so both select the default. -/
def pyOrStr (o : Option String) (d : String) : String :=
  match o with
  | some s => if s = "" then d else s
  | none => d

/-! ## Earnings ledger (gonka_tools/analytics.py, class EarningsTracker)

`EarningsRecord` mirrors the dataclass of the same name; `datetime`
timestamps are modelled as integers (only their ordering matters to the
code under verification).  The tracker state carries both the in-memory
`records` list and the record list last written to the data file by
`_save_data` (the persisted file contents). -/

structure EarningsRecord where
  timestamp : Int
  amount : Rat
  token : String := "GONKA"
  tx_hash : Option String := none
  block_number : Option Int := none
  node_name : Option String := none
  deriving DecidableEq, Repr

/-- Comparison used by `self.records.sort(key=lambda r: r.timestamp)`. -/
def tsLe (a b : EarningsRecord) : Bool := a.timestamp ≤ b.timestamp

structure EarningsTracker where
  records : List EarningsRecord
  saved : List EarningsRecord
  deriving DecidableEq, Repr

/-- Truthiness of `record.tx_hash` in Python: `None` and `""` are falsy. -/
def txHashTruthy (r : EarningsRecord) : Bool :=
  match r.tx_hash with
  | some s => s ≠ ""
  | none => false

/-- EarningsTracker.add_record: if the new record has a truthy `tx_hash`
that equals the `tx_hash` of an existing record, return without touching
the list or the file; otherwise append, sort by timestamp (Python `sort`
is a stable sort, modelled by the stable `List.mergeSort`), and persist. -/
def add_record (st : EarningsTracker) (r : EarningsRecord) : EarningsTracker :=
  if txHashTruthy r && st.records.any (fun e => e.tx_hash == r.tx_hash) then st
  else
    let rs := (st.records ++ [r]).mergeSort tsLe
    ⟨rs, rs⟩

/-- A tracker whose data file was absent or unreadable starts empty. -/
def emptyTracker : EarningsTracker := ⟨[], []⟩

theorem tsLe_trans (a b c : EarningsRecord) : tsLe a b → tsLe b c → tsLe a c := by
  simp only [tsLe, decide_eq_true_eq]
  omega

theorem tsLe_total (a b : EarningsRecord) : tsLe a b || tsLe b a := by
  simp only [tsLe, Bool.or_eq_true, decide_eq_true_eq]
  omega

theorem add_record_records_sorted (st : EarningsTracker) (r : EarningsRecord) :
    (add_record st r).records = st.records ∨
      (add_record st r).records.Pairwise (fun a b => tsLe a b = true) := by
  rw [add_record]
  split
  · exact Or.inl rfl
  · right
    exact List.sorted_mergeSort tsLe_trans tsLe_total (st.records ++ [r])

theorem foldl_add_record_sorted (init : EarningsTracker)
    (h : init.records.Pairwise (fun a b => tsLe a b = true)) (rs : List EarningsRecord) :
    (rs.foldl add_record init).records.Pairwise (fun a b => tsLe a b = true) := by
  induction rs generalizing init with
  | nil => exact h
  | cons r rest ih =>
    apply ih
    rcases add_record_records_sorted init r with h1 | h1
    · rwa [h1]
    · exact h1

/-- C8: appending a record whose non-empty tx_hash equals the tx_hash of a
record already in the ledger is a no-op: the record list and the persisted
file are unchanged. -/
theorem add_record_duplicate_hash_noop (st : EarningsTracker) (r e : EarningsRecord)
    (hsh : String) (h1 : r.tx_hash = some hsh) (h2 : hsh ≠ "")
    (hmem : e ∈ st.records) (heq : e.tx_hash = r.tx_hash) :
    add_record st r = st := by
  have htruthy : txHashTruthy r = true := by
    simp [txHashTruthy, h1, h2]
  rw [add_record, if_pos]
  rw [Bool.and_eq_true, htruthy, List.any_eq_true]
  exact ⟨rfl, e, hmem, by simp [heq]⟩

/-- C8 witness: concretely, re-adding a record with an already-present
non-empty transaction hash leaves the tracker unchanged. -/
theorem add_record_duplicate_hash_noop_witness :
    add_record
        ⟨[{ timestamp := 5, amount := 3/2, tx_hash := some "abc" }],
         [{ timestamp := 5, amount := 3/2, tx_hash := some "abc" }]⟩
        { timestamp := 9, amount := 3/2, tx_hash := some "abc" } =
      ⟨[{ timestamp := 5, amount := 3/2, tx_hash := some "abc" }],
       [{ timestamp := 5, amount := 3/2, tx_hash := some "abc" }]⟩ :=
  add_record_duplicate_hash_noop _
    { timestamp := 9, amount := 3/2, tx_hash := some "abc" }
    { timestamp := 5, amount := 3/2, tx_hash := some "abc" }
    "abc" rfl (by decide) (by simp) rfl

/-- C9: after every add_record call the record list is either untouched (the
duplicate-hash no-op) or sorted ascending by timestamp; consequently any
sequence of add_record calls starting from the freshly loaded empty tracker
leaves the ledger sorted ascending by timestamp, whatever the insertion
order. -/
theorem add_record_keeps_ledger_sorted :
    (∀ st r, (add_record st r).records = st.records ∨
        (add_record st r).records.Pairwise (fun a b => tsLe a b = true)) ∧
      (∀ rs : List EarningsRecord,
        (rs.foldl add_record emptyTracker).records.Pairwise (fun a b => tsLe a b = true)) :=
  ⟨add_record_records_sorted,
   fun rs => foldl_add_record_sorted emptyTracker (by simp [emptyTracker]) rs⟩

/-- C10: a record whose tx_hash is None or the empty string is always
appended, even when an identical record is already present: dedup applies
only to truthy hashes, so hash-less duplicates accumulate. -/
theorem add_record_hashless_always_appends (st : EarningsTracker) (r : EarningsRecord)
    (h : r.tx_hash = none ∨ r.tx_hash = some "") :
    (add_record st r).records.length = st.records.length + 1 ∧
      (add_record st r).records.count r = st.records.count r + 1 := by
  have htruthy : txHashTruthy r = false := by
    rcases h with h1 | h1 <;> simp [txHashTruthy, h1]
  have hperm : (add_record st r).records.Perm (st.records ++ [r]) := by
    rw [add_record, if_neg]
    · exact List.mergeSort_perm _ _
    · simp [htruthy]
  constructor
  · rw [hperm.length_eq, List.length_append]
    rfl
  · rw [hperm.count_eq, List.count_append]
    simp

/-- C10 witness: adding the same hash-less record twice to the same ledger
grows it both times, so the identical record appears twice. -/
theorem add_record_hashless_always_appends_witness :
    ((add_record (add_record emptyTracker { timestamp := 7, amount := 2 })
        { timestamp := 7, amount := 2 }).records.length = 2) := by
  obtain ⟨len1, -⟩ := add_record_hashless_always_appends emptyTracker
    { timestamp := 7, amount := 2 } (Or.inl rfl)
  obtain ⟨len2, -⟩ := add_record_hashless_always_appends
    (add_record emptyTracker { timestamp := 7, amount := 2 })
    { timestamp := 7, amount := 2 } (Or.inl rfl)
  have h0 : (emptyTracker).records.length = 0 := rfl
  omega

/-! ## Node metrics and threshold evaluation (gonka_tools/monitor.py)

`NodeMetrics` mirrors the dataclass of the same name (the timestamp field
is an opaque integer; floats are rationals).  `check_and_alert` below is
the candidate-generation part of `NodeMonitor.check_and_alert`: the list
of `(level, title, details)` tuples the method appends to `alerts` before
offering each of them to the Telegram notifier. -/

structure NodeMetrics where
  timestamp : Int := 0
  node_name : String
  host : String
  reachable : Bool := false
  cpu_percent : Rat := 0
  memory_percent : Rat := 0
  disk_percent : Rat := 0
  load_avg : Rat × Rat × Rat := (0, 0, 0)
  gpu_available : Bool := false
  gpu_count : Nat := 0
  gpu_utilization : List Rat := []
  gpu_memory_used : List Rat := []
  gpu_temperature : List Rat := []
  service_running : Bool := false
  gonka_version : String := ""
  error : Option String := none
  deriving DecidableEq, Repr

/-- Alert severity levels (monitor.py `AlertLevel`). -/
inductive AlertLevel
  | info
  | warning
  | critical
  deriving DecidableEq, Repr

/-- The `value` attribute of the `AlertLevel` enum. -/
def AlertLevel.value : AlertLevel → String
  | .info => "info"
  | .warning => "warning"
  | .critical => "critical"

/-- One `(level, title, details)` tuple appended to the `alerts` list. -/
abbrev AlertCandidate := AlertLevel × String × String

/-- Resolved thresholds: the method reads each from the per-node monitoring
mapping with the settings value as fallback; settings declare them as
integers (`cpu_alert_threshold: int = 90`, and so on). -/
structure Thresholds where
  cpu_threshold : Int := 90
  memory_threshold : Int := 85
  disk_threshold : Int := 90
  gpu_temp_threshold : Int := 85
  deriving DecidableEq, Repr

/-- Details string of the unreachable alert:
`f"Cannot connect to node.\nError: {metrics.error or 'Connection timeout'}"`. -/
def unreachableDetails (err : Option String) : String :=
  "Cannot connect to node.\nError: " ++ pyOrStr err "Connection timeout"

/-- Details string of the CPU alert:
`f"CPU usage is at {metrics.cpu_percent:.1f}% (threshold: {cpu_threshold}%)"`. -/
def cpuDetails (c : Rat) (th : Int) : String :=
  "CPU usage is at " ++ fmt1 c ++ "% (threshold: " ++ toString th ++ "%)"

/-- Details string of the memory alert. -/
def memoryDetails (v : Rat) (th : Int) : String :=
  "Memory usage is at " ++ fmt1 v ++ "% (threshold: " ++ toString th ++ "%)"

/-- Details string of the disk alert. -/
def diskDetails (v : Rat) (th : Int) : String :=
  "Disk usage is at " ++ fmt1 v ++ "% (threshold: " ++ toString th ++ "%)"

/-- Title of the per-GPU temperature alert, indexed by GPU position. -/
def gpuTitle (i : Nat) : String :=
  "High GPU Temperature (GPU " ++ toString i ++ ")"

/-- Details string of the per-GPU temperature alert. -/
def gpuDetails (i : Nat) (temp : Rat) (th : Int) : String :=
  "GPU " ++ toString i ++ " temperature is " ++ pyFloatStr temp ++
    "°C (threshold: " ++ toString th ++ "°C)"

/-- The `for i, temp in enumerate(metrics.gpu_temperature)` loop: one
WARNING per GPU whose temperature reaches the threshold, in index order. -/
def gpuTempAlerts (temps : List Rat) (th : Int) : List AlertCandidate :=
  (temps.enum.filter (fun p => (th : Rat) ≤ p.2)).map
    (fun p => (AlertLevel.warning, gpuTitle p.1, gpuDetails p.1 p.2 th))

/-- NodeMonitor.check_and_alert, candidate-generation part: unreachable
short-circuits every other rule; otherwise the service, CPU, memory, disk
and per-GPU rules append independently, in this order.  All numeric
comparisons in the source are `>=` (inclusive). -/
def check_and_alert (m : NodeMetrics) (t : Thresholds) : List AlertCandidate :=
  if m.reachable = false then
    [(AlertLevel.critical, "Node Unreachable", unreachableDetails m.error)]
  else
    (if m.service_running = false then
      [(AlertLevel.critical, "Gonka Service Stopped",
        "The Gonka inferenced service is not running.")]
     else []) ++
    (if (t.cpu_threshold : Rat) ≤ m.cpu_percent then
      [(AlertLevel.warning, "High CPU Usage", cpuDetails m.cpu_percent t.cpu_threshold)]
     else []) ++
    (if (t.memory_threshold : Rat) ≤ m.memory_percent then
      [(AlertLevel.warning, "High Memory Usage",
        memoryDetails m.memory_percent t.memory_threshold)]
     else []) ++
    (if (t.disk_threshold : Rat) ≤ m.disk_percent then
      [(AlertLevel.warning, "High Disk Usage",
        diskDetails m.disk_percent t.disk_threshold)]
     else []) ++
    gpuTempAlerts m.gpu_temperature t.gpu_temp_threshold

theorem mem_if_singleton {α : Type} (p : Prop) [Decidable p] (a x : α) :
    (x ∈ (if p then [a] else [])) ↔ p ∧ x = a := by
  split <;> simp_all

theorem gpuTitle_length_ge (i : Nat) : 27 ≤ (gpuTitle i).length := by
  have h1 : ("High GPU Temperature (GPU " : String).length = 26 := by decide
  have h2 : (")" : String).length = 1 := by decide
  simp [gpuTitle, String.length_append, h1, h2]

theorem gpuTitle_ne_short (i : Nat) (s : String) (hs : s.length < 27) :
    gpuTitle i ≠ s := by
  intro h
  have := gpuTitle_length_ge i
  rw [h] at this
  omega

theorem mem_gpuTempAlerts (temps : List Rat) (th : Int) (x : AlertCandidate)
    (hx : x ∈ gpuTempAlerts temps th) : ∃ i t, x = (AlertLevel.warning, gpuTitle i, gpuDetails i t th) := by
  rw [gpuTempAlerts, List.mem_map] at hx
  obtain ⟨p, -, hp⟩ := hx
  exact ⟨p.1, p.2, hp.symm⟩

/-- Membership characterization of the reachable branch of check_and_alert. -/
theorem mem_check_and_alert_reachable (m : NodeMetrics) (t : Thresholds)
    (h : m.reachable = true) (x : AlertCandidate) :
    x ∈ check_and_alert m t ↔
      (m.service_running = false ∧
        x = (AlertLevel.critical, "Gonka Service Stopped",
          "The Gonka inferenced service is not running.")) ∨
      ((t.cpu_threshold : Rat) ≤ m.cpu_percent ∧
        x = (AlertLevel.warning, "High CPU Usage", cpuDetails m.cpu_percent t.cpu_threshold)) ∨
      ((t.memory_threshold : Rat) ≤ m.memory_percent ∧
        x = (AlertLevel.warning, "High Memory Usage",
          memoryDetails m.memory_percent t.memory_threshold)) ∨
      ((t.disk_threshold : Rat) ≤ m.disk_percent ∧
        x = (AlertLevel.warning, "High Disk Usage",
          diskDetails m.disk_percent t.disk_threshold)) ∨
      x ∈ gpuTempAlerts m.gpu_temperature t.gpu_temp_threshold := by
  rw [check_and_alert, if_neg (by simp [h])]
  simp only [List.mem_append, mem_if_singleton]
  tauto

/-- C2: for every snapshot with reachable=false, threshold evaluation
produces exactly one candidate — CRITICAL with title "Node Unreachable" —
and no candidate from any other rule. -/
theorem check_and_alert_unreachable_exactly_one (m : NodeMetrics) (t : Thresholds)
    (h : m.reachable = false) :
    check_and_alert m t =
      [(AlertLevel.critical, "Node Unreachable", unreachableDetails m.error)] := by
  rw [check_and_alert, if_pos h]

/-- C2 witness: a concrete unreachable snapshot yields exactly the one
CRITICAL "Node Unreachable" candidate. -/
theorem check_and_alert_unreachable_exactly_one_witness :
    check_and_alert { node_name := "node1", host := "203.0.113.7", reachable := false }
        {} =
      [(AlertLevel.critical, "Node Unreachable",
        "Cannot connect to node.\nError: Connection timeout")] := by
  have := check_and_alert_unreachable_exactly_one
    { node_name := "node1", host := "203.0.113.7", reachable := false } {} rfl
  simpa [unreachableDetails, pyOrStr] using this

/-- C6: for every reachable snapshot and threshold set, the "High CPU
Usage" WARNING candidate appears iff cpu_percent is at least the resolved
CPU threshold (inclusive comparison), and its details text contains both
the observed CPU value and the threshold value. -/
theorem high_cpu_candidate_iff (m : NodeMetrics) (t : Thresholds)
    (h : m.reachable = true) :
    ((∃ l d, (l, "High CPU Usage", d) ∈ check_and_alert m t) ↔
        (t.cpu_threshold : Rat) ≤ m.cpu_percent) ∧
      (∀ l d, (l, "High CPU Usage", d) ∈ check_and_alert m t →
        l = AlertLevel.warning ∧ d = cpuDetails m.cpu_percent t.cpu_threshold) ∧
      (∃ pre post, cpuDetails m.cpu_percent t.cpu_threshold =
          pre ++ fmt1 m.cpu_percent ++ post) ∧
      (∃ pre post, cpuDetails m.cpu_percent t.cpu_threshold =
          pre ++ toString t.cpu_threshold ++ post) := by
  refine ⟨⟨?_, ?_⟩, ?_, ?_, ?_⟩
  · rintro ⟨l, d, hmem⟩
    rw [mem_check_and_alert_reachable m t h] at hmem
    simp only [Prod.mk.injEq] at hmem
    rcases hmem with ⟨-, -, he, -⟩ | ⟨hc, -⟩ | ⟨-, -, he, -⟩ | ⟨-, -, he, -⟩ | hg
    · exact absurd he (by decide)
    · exact hc
    · exact absurd he (by decide)
    · exact absurd he (by decide)
    · obtain ⟨i, temp, he⟩ := mem_gpuTempAlerts _ _ _ hg
      simp only [Prod.mk.injEq] at he
      exact absurd he.2.1.symm (gpuTitle_ne_short i _ (by decide))
  · intro hc
    refine ⟨AlertLevel.warning, cpuDetails m.cpu_percent t.cpu_threshold, ?_⟩
    rw [mem_check_and_alert_reachable m t h]
    exact Or.inr (Or.inl ⟨hc, rfl⟩)
  · intro l d hmem
    rw [mem_check_and_alert_reachable m t h] at hmem
    simp only [Prod.mk.injEq] at hmem
    rcases hmem with ⟨-, -, he, -⟩ | ⟨-, hl, -, hd⟩ | ⟨-, -, he, -⟩ | ⟨-, -, he, -⟩ | hg
    · exact absurd he (by decide)
    · exact ⟨hl, hd⟩
    · exact absurd he (by decide)
    · exact absurd he (by decide)
    · obtain ⟨i, temp, he⟩ := mem_gpuTempAlerts _ _ _ hg
      simp only [Prod.mk.injEq] at he
      exact absurd he.2.1.symm (gpuTitle_ne_short i _ (by decide))
  · refine ⟨"CPU usage is at ",
      "% (threshold: " ++ toString t.cpu_threshold ++ "%)", ?_⟩
    simp [cpuDetails, String.append_assoc]
  · refine ⟨"CPU usage is at " ++ fmt1 m.cpu_percent ++ "% (threshold: ", "%)", ?_⟩
    simp [cpuDetails, String.append_assoc]

/-- C6 witness: the spec scenario CPU=95, threshold=90 instantiated; in
particular the rendered details text is built around "95.0" and "90". -/
theorem high_cpu_candidate_iff_witness :
    (((∃ l d, (l, "High CPU Usage", d) ∈
          check_and_alert
            { node_name := "node1", host := "203.0.113.7", reachable := true,
              cpu_percent := 95 } {}) ↔
        ((({} : Thresholds).cpu_threshold : Rat) ≤ (95 : Rat))) ∧
      (∀ l d, (l, "High CPU Usage", d) ∈
          check_and_alert
            { node_name := "node1", host := "203.0.113.7", reachable := true,
              cpu_percent := 95 } {} →
        l = AlertLevel.warning ∧ d = cpuDetails 95 90) ∧
      (∃ pre post, cpuDetails 95 90 = pre ++ fmt1 95 ++ post) ∧
      (∃ pre post, cpuDetails 95 90 = pre ++ toString (90 : Int) ++ post)) :=
  high_cpu_candidate_iff
    { node_name := "node1", host := "203.0.113.7", reachable := true,
      cpu_percent := 95 } {} rfl

/-! ## Telegram notifier cooldown gate (monitor.py, TelegramNotifier.send_alert)

The per-instance dictionary mapping the formatted alert key to the time of
the last successful send is modelled as a function into `Option Rat`
(`time.time()` values become rationals).  The outcome of the one
`send_message` call a non-suppressed offer makes is an explicit boolean
input (`send_message` itself catches channel exceptions and returns a
boolean, so it is a total function of the channel outcome).  The formatted
message body is irrelevant to every claim; whether the channel was
contacted at all is recorded in the `contacted` flag. -/

abbrev CooldownMap := String → Option Rat

/-- The cooldown window `self._cooldown_seconds = 300`. -/
def cooldownSeconds : Rat := 300

/-- The composite key `f"{node_name}:{level.value}:{title}"`. -/
def alertKey (node : String) (level : AlertLevel) (title : String) : String :=
  node ++ ":" ++ level.value ++ ":" ++ title

structure SendAlertResult where
  sent : Bool
  state : CooldownMap
  contacted : Bool

/-- TelegramNotifier.send_alert: if the key has an entry younger than the
cooldown, return False without contacting the channel; otherwise call
send_message, and record the current time for the key only when the send
succeeded. -/
def send_alert (st : CooldownMap) (node : String) (level : AlertLevel) (title : String)
    (now : Rat) (sendOk : Bool) : SendAlertResult :=
  let key := alertKey node level title
  let attempt : SendAlertResult :=
    if sendOk then ⟨true, fun k => if k = key then some now else st k, true⟩
    else ⟨false, st, true⟩
  match st key with
  | some last => if now - last < cooldownSeconds then ⟨false, st, false⟩ else attempt
  | none => attempt

theorem send_alert_sent_updates (st : CooldownMap) (node : String) (level : AlertLevel)
    (title : String) (now : Rat) (b : Bool)
    (h : (send_alert st node level title now b).sent = true) :
    (send_alert st node level title now b).state (alertKey node level title) = some now := by
  rcases hk : st (alertKey node level title) with - | last
  · rcases b with - | -
    · simp [send_alert, hk] at h
    · simp [send_alert, hk]
  · by_cases hc : now - last < cooldownSeconds
    · simp [send_alert, hk, hc] at h
    · rcases b with - | -
      · simp [send_alert, hk, hc] at h
      · simp [send_alert, hk, hc]

/-- C1: the notification gate with the cooldown window.  After a successful
send for a key at time t1, an offer of the same key at t2 within the window
returns false without contacting the channel and leaves the state
untouched; an offer at or past the end of the window contacts the channel
again; and a failed send (from any state) returns false and leaves the
cooldown map unchanged, so a channel outage never extends suppression. -/
theorem send_alert_cooldown_contract (st : CooldownMap) (node : String)
    (level : AlertLevel) (title : String) (t1 t2 : Rat) (b : Bool)
    (h1 : (send_alert st node level title t1 true).sent = true) :
    (t2 - t1 < cooldownSeconds →
        send_alert (send_alert st node level title t1 true).state node level title t2 b =
          ⟨false, (send_alert st node level title t1 true).state, false⟩) ∧
      (cooldownSeconds ≤ t2 - t1 →
        (send_alert (send_alert st node level title t1 true).state node level title t2 b).contacted
          = true) ∧
      (∀ st2 : CooldownMap, (send_alert st2 node level title t2 false).state = st2 ∧
        (send_alert st2 node level title t2 false).sent = false) := by
  have hupd := send_alert_sent_updates st node level title t1 true h1
  refine ⟨?_, ?_, ?_⟩
  · intro hlt
    generalize hst : (send_alert st node level title t1 true).state = st1 at hupd ⊢
    simp [send_alert, hupd, hlt]
  · intro hge
    have hnlt : ¬ (t2 - t1 < cooldownSeconds) := not_lt.mpr hge
    generalize hst : (send_alert st node level title t1 true).state = st1 at hupd ⊢
    rcases b with - | - <;> simp [send_alert, hupd, hnlt]
  · intro st2
    rcases hk : st2 (alertKey node level title) with - | last
    · simp [send_alert, hk]
    · by_cases hc : t2 - last < cooldownSeconds <;> simp [send_alert, hk, hc]

/-- C1 witness: from an empty cooldown map, a successful send at time 0 for
a concrete key suppresses an offer at time 100, retries at time 300, and a
failed send never touches the map. -/
theorem send_alert_cooldown_contract_witness :
    ((100 : Rat) - 0 < cooldownSeconds →
        send_alert
            (send_alert (fun _ => none) "node1" AlertLevel.critical "Node Unreachable" 0
              true).state
            "node1" AlertLevel.critical "Node Unreachable" 100 true =
          ⟨false,
            (send_alert (fun _ => none) "node1" AlertLevel.critical "Node Unreachable" 0
              true).state,
            false⟩) ∧
      (cooldownSeconds ≤ (100 : Rat) - 0 →
        (send_alert
            (send_alert (fun _ => none) "node1" AlertLevel.critical "Node Unreachable" 0
              true).state
            "node1" AlertLevel.critical "Node Unreachable" 100 true).contacted = true) ∧
      (∀ st2 : CooldownMap,
        (send_alert st2 "node1" AlertLevel.critical "Node Unreachable" 100 false).state = st2 ∧
          (send_alert st2 "node1" AlertLevel.critical "Node Unreachable" 100 false).sent
            = false) :=
  send_alert_cooldown_contract (fun _ => none) "node1" AlertLevel.critical
    "Node Unreachable" 0 100 true rfl

/-! ## Monitoring cycle (monitor.py, NodeMonitor.monitor_once)

`collect_metrics` wraps its whole body (connect plus probes) in one
try/except that stores the exception text in the snapshot's `error` field
and still returns the snapshot, so collection is a total function; this is
modelled by an `Except` outcome whose error branch carries the partially
filled snapshot together with the exception text.  `check_and_alert`, by
contrast, is called by `monitor_once` with no per-node try/except at all:
an exception it raises (for example `thresholds.get` on a per-node
`monitoring` value that is not a mapping) propagates out of the loop, and
is caught only by `monitor_loop`, which logs it, sleeps and starts the
next cycle.  One node of a cycle is therefore modelled by its collection
outcome and by whether its evaluation raises. -/

structure NodeRun where
  body : Except (NodeMetrics × String) NodeMetrics
  eval_exc : Option String

/-- NodeMonitor.collect_metrics: the try body either completes with the
snapshot, or raises, in which case the except clause sets `error` on the
partially built snapshot and the snapshot is returned anyway. -/
def collect_metrics_run (n : NodeRun) : NodeMetrics :=
  match n.body with
  | .ok m => m
  | .error (m, e) => { m with error := some e }

/-- NodeMonitor.monitor_once: for each enabled node in order, collect the
snapshot, append it to `all_metrics`, then evaluate and offer alerts —
with no try/except around the per-node body, so an exception raised by the
evaluation of one node ends the loop, abandoning the remaining nodes of
the cycle.  Returns the snapshots actually collected and the exception, if
any, that escaped. -/
def monitor_once : List NodeRun → List NodeMetrics × Option String
  | [] => ([], none)
  | n :: rest =>
    let m := collect_metrics_run n
    match n.eval_exc with
    | some e => ([m], some e)
    | none =>
      let r := monitor_once rest
      (m :: r.1, r.2)

/-- A healthy concrete node run used by the C3 theorems. -/
def healthyRun (name : String) : NodeRun :=
  ⟨.ok { node_name := name, host := name, reachable := true, service_running := true },
   none⟩

/-- A concrete node run whose evaluation raises. -/
def evalRaisesRun : NodeRun :=
  ⟨.ok { node_name := "node1", host := "node1", reachable := true, service_running := true },
   some "AttributeError"⟩

/-- C3 counterexample: in a two-node cycle where the first node's
evaluation raises, only one snapshot is collected — the remaining node is
not processed in that cycle, so a per-node exception is not isolated as
the claim states. -/
theorem monitor_once_eval_exception_aborts_cycle :
    (monitor_once [evalRaisesRun, healthyRun "node2"]).1.length = 1 ∧
      [evalRaisesRun, healthyRun "node2"].length = 2 ∧
      (monitor_once [evalRaisesRun, healthyRun "node2"]).2 = some "AttributeError" := by
  refine ⟨rfl, rfl, rfl⟩

/-- C3 amended: exceptions during metric collection are caught inside
collect_metrics itself (becoming the error field of the snapshot), so a
collection failure never aborts the cycle and every node is still
processed; but an exception raised while evaluating one node propagates
out of monitor_once, abandoning the remaining nodes of that cycle (it is
caught only by the loop-level handler of monitor_loop). -/
theorem monitor_once_error_isolation (ns : List NodeRun) (n : NodeRun)
    (rest : List NodeRun) (e : String)
    (h1 : ∀ x ∈ ns, x.eval_exc = none) (h2 : n.eval_exc = some e) :
    ((monitor_once ns).1.length = ns.length ∧ (monitor_once ns).2 = none) ∧
      monitor_once (n :: rest) = ([collect_metrics_run n], some e) := by
  constructor
  · induction ns with
    | nil => exact ⟨rfl, rfl⟩
    | cons x xs ih =>
      have hx : x.eval_exc = none := h1 x (List.mem_cons_self x xs)
      have hxs := ih (fun y hy => h1 y (List.mem_cons_of_mem x hy))
      rw [monitor_once, hx]
      exact ⟨by simp [hxs.1], hxs.2⟩
  · rw [monitor_once, h2]

/-- C3 witness: a cycle of two nodes whose collections both raise is still
fully processed (both snapshots returned, no escaping exception), while a
node with a raising evaluation aborts its cycle after its own snapshot. -/
theorem monitor_once_error_isolation_witness :
    ((monitor_once
          [⟨.error ({ node_name := "a", host := "a" }, "SSHException"), none⟩,
           ⟨.error ({ node_name := "b", host := "b" }, "timed out"), none⟩]).1.length =
        [⟨(.error ({ node_name := "a", host := "a" }, "SSHException") :
            Except (NodeMetrics × String) NodeMetrics), none⟩,
         (⟨.error ({ node_name := "b", host := "b" }, "timed out"), none⟩ : NodeRun)].length ∧
      (monitor_once
          [⟨.error ({ node_name := "a", host := "a" }, "SSHException"), none⟩,
           ⟨.error ({ node_name := "b", host := "b" }, "timed out"), none⟩]).2 = none) ∧
      monitor_once (evalRaisesRun :: [healthyRun "node2"]) =
        ([collect_metrics_run evalRaisesRun], some "AttributeError") :=
  monitor_once_error_isolation
    [⟨.error ({ node_name := "a", host := "a" }, "SSHException"), none⟩,
     ⟨.error ({ node_name := "b", host := "b" }, "timed out"), none⟩]
    evalRaisesRun [healthyRun "node2"] "AttributeError"
    (by intro x hx
        simp only [List.mem_cons, List.not_mem_nil, or_false] at hx
        rcases hx with rfl | rfl <;> rfl)
    rfl

/-! ## SSH session lifecycle (scripts/telegram_bot.py ssh_exec and
monitor.py NodeMonitor.collect_metrics)

The paramiko calls are abstracted into a behaviour record saying whether
`connect` succeeds and whether the command execution and channel reads
after it succeed (a read past the 30 second execution timeout raises).
The model tracks, alongside the returned value, whether a transport
session was established (`opened`) and whether `client.close()` was
reached (`closed`). -/

structure SSHBehavior where
  connect_ok : Bool
  exec_ok : Bool
  deriving DecidableEq, Repr

structure SSHExecResult where
  ok : Bool
  output : String
  opened : Bool
  closed : Bool
  deriving DecidableEq, Repr

/-- telegram_bot.ssh_exec: connect; run the command and read stdout and
stderr; pick stdout if non-empty else stderr; close; return (True, output).
Any exception lands in the except clause, which returns (False, str(e))
immediately — `client.close()` is on the success path only, so an
exception raised after a successful connect leaves the session open. -/
def ssh_exec (w : SSHBehavior) (outS errS errMsg : String) : SSHExecResult :=
  if w.connect_ok = false then ⟨false, errMsg, false, false⟩
  else if w.exec_ok = false then ⟨false, errMsg, true, false⟩
  else ⟨true, if outS ≠ "" then outS else errS, true, true⟩

structure CollectSession where
  opened : Bool
  closed : Bool
  metrics : NodeMetrics
  deriving DecidableEq, Repr

/-- monitor.py NodeMonitor.collect_metrics, session view: if connect
raises, the except clause records the error and no session exists; once
connect succeeds, each probe helper (_collect_system_metrics,
_collect_gpu_metrics, _collect_gonka_metrics) swallows its own exceptions,
so the probe phase is a total transformation of the snapshot and
`client.close()` is always reached.  Its except path would also skip
close(), but no exception of the caught class can escape the probe
helpers between connect and close. -/
def collect_metrics_session (connect_ok : Bool) (m0 : NodeMetrics)
    (probes : NodeMetrics → NodeMetrics) (errMsg : String) : CollectSession :=
  if connect_ok then ⟨true, true, probes { m0 with reachable := true }⟩
  else ⟨false, false, { m0 with error := some errMsg }⟩

/-- C7 counterexample: a connect that succeeds followed by a command
execution that raises (for example a command outliving its 30 second
timeout) takes the except path of ssh_exec: the session was opened and is
never closed, contradicting teardown on every exit path. -/
theorem ssh_exec_leaks_session_on_exec_failure :
    (ssh_exec ⟨true, false⟩ "" "" "timed out").opened = true ∧
      (ssh_exec ⟨true, false⟩ "" "" "timed out").closed = false := ⟨rfl, rfl⟩

/-- C7 amended: ssh_exec closes the session it opened only on the success
path (and a failed connect opens no session); collect_metrics closes the
session whenever one was opened, because every post-connect probe failure
is swallowed inside the probe helpers. -/
theorem ssh_session_teardown (w : SSHBehavior) (outS errS errMsg : String)
    (connect_ok : Bool) (m0 : NodeMetrics) (probes : NodeMetrics → NodeMetrics)
    (eMsg : String) (hok : (ssh_exec w outS errS errMsg).ok = true)
    (hop : (collect_metrics_session connect_ok m0 probes eMsg).opened = true) :
    (ssh_exec w outS errS errMsg).closed = true ∧
      (w.connect_ok = false → (ssh_exec w outS errS errMsg).opened = false) ∧
      (collect_metrics_session connect_ok m0 probes eMsg).closed = true := by
  refine ⟨?_, ?_, ?_⟩
  · rcases w with ⟨co, ex⟩
    rcases co with - | - <;> rcases ex with - | - <;> simp_all [ssh_exec]
  · intro hco
    simp [ssh_exec, hco]
  · rcases connect_ok with - | -
    · simp [collect_metrics_session] at hop
    · simp [collect_metrics_session]

/-- C7 witness: a fully successful ssh_exec closes its session, a failed
connect opens none, and a collect_metrics session that opened is closed. -/
theorem ssh_session_teardown_witness :
    (ssh_exec ⟨true, true⟩ "ok" "" "").closed = true ∧
      ((⟨true, true⟩ : SSHBehavior).connect_ok = false →
        (ssh_exec ⟨true, true⟩ "ok" "" "").opened = false) ∧
      (collect_metrics_session true { node_name := "n", host := "h" } id "").closed
        = true :=
  ssh_session_teardown ⟨true, true⟩ "ok" "" "" true { node_name := "n", host := "h" }
    id "" rfl rfl

/-! ## System metric probes (monitor.py _collect_system_metrics and
telegram_bot.get_full_status)

`_collect_system_metrics` runs the CPU, memory, disk and load-average
probes sequentially inside a single try/except. An empty command output is
skipped by the `if out:` guards, but a malformed non-empty output makes
`float()` raise, which jumps to the shared except clause: the fields
already assigned survive, those of every later probe keep their defaults.
Each probe is modelled by the decoded text the command produced. -/

structure SysOutputs where
  cpuOut : String
  memOut : String
  diskOut : String
  loadOut : String
  deriving DecidableEq, Repr

/-- One `out = stdout.read().decode().strip(); if out: field = float(out)`
step: `none` is the ValueError escaping to the shared except clause. -/
def sysFloatStep (out : String) (set : Rat → NodeMetrics → NodeMetrics)
    (m : NodeMetrics) : Option NodeMetrics :=
  let s := pyStrip out
  if s = "" then some m
  else
    match pyFloat? s with
    | some v => some (set v m)
    | none => none

/-- Split a character list on whitespace runs, dropping empty pieces: the
behaviour of Python `str.split()` with no argument. -/
def splitWsChars : List Char → List Char → List String
  | [], [] => []
  | [], acc => [String.mk acc.reverse]
  | c :: rest, acc =>
    if c.isWhitespace then
      match acc with
      | [] => splitWsChars rest []
      | _ => String.mk acc.reverse :: splitWsChars rest []
    else splitWsChars rest (c :: acc)

/-- Model of Python `str.split()` (whitespace runs, no empty fields). -/
def pySplitWs (s : String) : List String := splitWsChars s.data []

/-- The load-average step: strip, split on whitespace, and if at least
three fields are present parse the first three floats into the load
triple; a parse failure is the exception, which — this being the last
statement of the try body — leaves the snapshot as it stands. -/
def sysLoadStep (out : String) (m : NodeMetrics) : NodeMetrics :=
  match pySplitWs (pyStrip out) with
  | a :: b :: c :: _ =>
    match pyFloat? a, pyFloat? b, pyFloat? c with
    | some x, some y, some z => { m with load_avg := (x, y, z) }
    | _, _, _ => m
  | _ => m

/-- NodeMonitor._collect_system_metrics: CPU, then memory, then disk, then
load average, all inside one try; the first ValueError aborts the
remaining probes but keeps the assignments already made. -/
def collect_system_metrics (m : NodeMetrics) (o : SysOutputs) : NodeMetrics :=
  match sysFloatStep o.cpuOut (fun v m => { m with cpu_percent := v }) m with
  | none => m
  | some m1 =>
    match sysFloatStep o.memOut (fun v m => { m with memory_percent := v }) m1 with
    | none => m1
    | some m2 =>
      match sysFloatStep o.diskOut (fun v m => { m with disk_percent := v }) m2 with
      | none => m2
      | some m3 => sysLoadStep o.loadOut m3

/-- Outcome of one ssh_exec call as get_full_status consumes it. -/
structure ProbeResult where
  ok : Bool
  out : String
  deriving DecidableEq, Repr

/-- telegram_bot._to_float: float(str(s).strip()) with every exception
mapped to None. -/
def to_float (s : String) : Option Rat := pyFloat? s

/-- The system fields of the status dictionary built by get_full_status. -/
structure BotSystemFields where
  cpu : Option Rat := none
  memory : Option Rat := none
  disk : Option Rat := none
  disk_free_gb : Option Rat := none
  deriving DecidableEq, Repr

/-- Model of `out.replace("%", "")`. -/
def stripPercent (s : String) : String :=
  String.mk (s.data.filter (fun c => c ≠ '%'))

/-- Split a character list at every occurrence of the separator. -/
def splitOnChar (sep : Char) : List Char → List (List Char)
  | [] => [[]]
  | c :: rest =>
    let r := splitOnChar sep rest
    if c = sep then [] :: r
    else
      match r with
      | [] => [[c]]
      | h :: t => (c :: h) :: t

/-- The non-blank lines of a command output:
`[x for x in out.splitlines() if x.strip()]` (whether `splitlines` keeps a
trailing empty piece is immaterial, the blank filter removes it). -/
def nonBlankLines (s : String) : List String :=
  ((splitOnChar '\n' s.data).map String.mk).filter (fun x => pyStrip x ≠ "")

/-- The two-line disk probe of get_full_status: line one is disk percent,
line two is free bytes over 1e9; fewer lines fill fewer fields. -/
def diskFill (s : BotSystemFields) (lines : List String) : BotSystemFields :=
  match lines with
  | [] => s
  | [a] => { s with disk := to_float a }
  | a :: b :: _ => { s with disk := to_float a, disk_free_gb := to_float b }

/-- telegram_bot.get_full_status, system-probe part: the CPU, memory and
disk probes are separate ssh_exec calls, each guarded by `if ok and out:`
and parsed with _to_float, so a malformed output degrades exactly its own
field to None. -/
def get_full_status_system (cpuP memP diskP : ProbeResult) : BotSystemFields :=
  let s0 : BotSystemFields := {}
  let s1 := if cpuP.ok = true ∧ cpuP.out ≠ "" then
      { s0 with cpu := to_float (stripPercent cpuP.out) } else s0
  let s2 := if memP.ok = true ∧ memP.out ≠ "" then
      { s1 with memory := to_float memP.out } else s1
  if diskP.ok = true ∧ diskP.out ≠ "" then diskFill s2 (nonBlankLines diskP.out)
  else s2

theorem sysLoadStep_memory (out : String) (m : NodeMetrics) :
    (sysLoadStep out m).memory_percent = m.memory_percent := by
  rw [sysLoadStep]
  split
  · split <;> rfl
  · rfl

theorem sysFloatStep_disk_memory (out : String) (m m2 : NodeMetrics)
    (h : sysFloatStep out (fun v m => { m with disk_percent := v }) m = some m2) :
    m2.memory_percent = m.memory_percent := by
  rw [sysFloatStep] at h
  split at h
  · cases h
    rfl
  · split at h
    · cases h
      rfl
    · cases h

theorem diskFill_memory (s : BotSystemFields) (lines : List String) :
    (diskFill s lines).memory = s.memory := by
  rcases lines with - | ⟨a, - | ⟨b, tl⟩⟩ <;> rfl

/-- C4 counterexample: with a malformed (non-empty, non-numeric) CPU
output and perfectly good memory, disk and load outputs, the snapshot
comes back with memory, disk and load still at their defaults — malformed
CPU output does prevent the other fields of the same snapshot from being
filled in. -/
theorem collect_system_metrics_cpu_parse_kills_rest :
    (collect_system_metrics { node_name := "node1", host := "h", reachable := true }
        ⟨"abc", "50.0", "70", "1.0 2.0 3.0"⟩) =
      { node_name := "node1", host := "h", reachable := true } ∧
      pyFloat? "50.0" = some 50 := by
  constructor
  · decide
  · decide

/-- C4 amended: in _collect_system_metrics an empty CPU probe output
degrades only that field (the `if out:` guard skips the assignment and the
later probes still run, so a parsable memory output is still stored), but
a malformed non-empty CPU output raises inside the single shared try and
returns with memory, disk and load untouched; in get_full_status each
probe is parsed independently, so the memory field is a function of the
memory probe alone. -/
theorem system_probe_isolation (m : NodeMetrics) (o o2 : SysOutputs) (v : Rat)
    (cpuP memP diskP : ProbeResult)
    (hbad1 : pyStrip o.cpuOut ≠ "") (hbad2 : pyFloat? (pyStrip o.cpuOut) = none)
    (hok1 : pyStrip o2.cpuOut = "") (hok2 : pyStrip o2.memOut ≠ "")
    (hok3 : pyFloat? (pyStrip o2.memOut) = some v) :
    collect_system_metrics m o = m ∧
      (collect_system_metrics m o2).memory_percent = v ∧
      (get_full_status_system cpuP memP diskP).memory =
        (if memP.ok = true ∧ memP.out ≠ "" then to_float memP.out else none) := by
  refine ⟨?_, ?_, ?_⟩
  · have hstep : sysFloatStep o.cpuOut (fun v m => { m with cpu_percent := v }) m = none := by
      simp [sysFloatStep, hbad1, hbad2]
    rw [collect_system_metrics, hstep]
  · have hcpu : sysFloatStep o2.cpuOut (fun v m => { m with cpu_percent := v }) m = some m := by
      simp [sysFloatStep, hok1]
    have hmem : sysFloatStep o2.memOut (fun v m => { m with memory_percent := v }) m =
        some { m with memory_percent := v } := by
      simp [sysFloatStep, hok2, hok3]
    simp only [collect_system_metrics, hcpu, hmem]
    rcases hdisk : sysFloatStep o2.diskOut (fun v m => { m with disk_percent := v })
        { m with memory_percent := v } with - | m3
    · rfl
    · rw [sysLoadStep_memory, sysFloatStep_disk_memory _ _ _ hdisk]
  · by_cases hm : memP.ok = true ∧ memP.out ≠ "" <;>
      by_cases hd : diskP.ok = true ∧ diskP.out ≠ "" <;>
      by_cases hc : cpuP.ok = true ∧ cpuP.out ≠ "" <;>
      simp [get_full_status_system, hm, hd, hc, diskFill_memory]

/-- C4 witness: concrete probe outputs instantiating the amended statement
(malformed CPU text "abc"; empty CPU output with memory "42.0"; a bot-side
memory probe parsed independently of the other probes). -/
theorem system_probe_isolation_witness :
    collect_system_metrics { node_name := "n", host := "h", reachable := true }
        ⟨"abc", "50.0", "70", "1.0 2.0 3.0"⟩ =
      { node_name := "n", host := "h", reachable := true } ∧
      (collect_system_metrics { node_name := "n", host := "h", reachable := true }
          ⟨"", "42.0", "70", "1.0 2.0 3.0"⟩).memory_percent = 42 ∧
      (get_full_status_system ⟨false, ""⟩ ⟨true, "42.0"⟩ ⟨true, "55\n123.4"⟩).memory =
        (if (true : Bool) = true ∧ ("42.0" : String) ≠ "" then to_float "42.0" else none) :=
  system_probe_isolation { node_name := "n", host := "h", reachable := true }
    ⟨"abc", "50.0", "70", "1.0 2.0 3.0"⟩ ⟨"", "42.0", "70", "1.0 2.0 3.0"⟩ 42
    ⟨false, ""⟩ ⟨true, "42.0"⟩ ⟨true, "55\n123.4"⟩
    (by decide) (by decide) (by decide) (by decide) (by decide)

/-! ## Bot alert rules (scripts/telegram_bot.py, check_alerts)

For one node, check_alerts inspects the status dictionary produced by
get_full_status and sends at most one message per rule, each gated by a
per-key cooldown of the same shape as the TelegramNotifier gate verified
above.  The rule layer — which alert keys have a satisfied condition for a
given status, with the offline rule short-circuiting the others via
`continue` — is modelled here; the cooldown gating is orthogonal and no
claim depends on it.  Rules in source order: offline; not synced;
inference stopped while the service state is INFERENCE; more than one
unhealthy container; free disk space at or below the floor (percent-used
disk has no alert rule in this function). -/

structure BotStatus where
  reachable : Bool := false
  cpu : Option Rat := none
  memory : Option Rat := none
  disk : Option Rat := none
  disk_free_gb : Option Rat := none
  synced : Bool := false
  sync_block : String := "0"
  service_state : String := "UNKNOWN"
  inference_running : Bool := false
  unhealthy : List String := []
  deriving DecidableEq, Repr

/-- The alert keys (without the node-name prefix) whose rule condition
holds for this status, in evaluation order. -/
def check_alerts_node (s : BotStatus) (freeFloor : Rat) : List String :=
  if s.reachable = false then ["offline"]
  else
    (if s.synced = false then ["sync"] else []) ++
    (if s.service_state = "INFERENCE" ∧ s.inference_running = false then ["inference"]
     else []) ++
    (if 1 < s.unhealthy.length then ["containers"] else []) ++
    (match s.disk_free_gb with
     | some g => if g ≤ freeFloor then ["disk_free"] else []
     | none => [])

/-- C5 counterexample: a healthy, reachable status at 99 percent disk
usage (past the 90 percent default threshold) with ample free space
produces no alert at all from check_alerts — the disk-percentage ceiling
check does not exist in the evaluator that has the free-GB floor, so the
two checks are never evaluated together and cannot both fire from one
snapshot. -/
theorem check_alerts_no_disk_percent_rule :
    check_alerts_node
        { reachable := true, cpu := some 10, memory := some 10, disk := some 99,
          disk_free_gb := some 1000, synced := true, service_state := "INFERENCE",
          inference_running := true, unhealthy := [] } 15 = [] ∧
      ({ reachable := true, cpu := some 10, memory := some 10, disk := some 99,
          disk_free_gb := some 1000, synced := true, service_state := "INFERENCE",
          inference_running := true, unhealthy := [] } : BotStatus).disk = some 99 ∧
      ((90 : Rat) ≤ 99) := by
  refine ⟨by decide, rfl, by decide⟩

/-- C5 amended: the two disk checks live in different evaluators and are
never evaluated on the same snapshot.  monitor.py's check_and_alert has
only the percentage rule: for a reachable snapshot the "High Disk Usage"
WARNING appears iff disk_percent is at least the disk threshold (and its
snapshot has no free-GB field at all).  telegram_bot's check_alerts has
only the free-GB floor rule: for a reachable, synced, otherwise healthy
status, the alert list is exactly the free-space alert when free-GB is at
or below the floor and empty otherwise.  The spec scenario (disk 50
percent, 10 GB free, 15 GB floor) therefore produces exactly the
free-space alert — in check_alerts, and only because no percentage rule
exists there. -/
theorem disk_rules_split_across_evaluators (m : NodeMetrics) (t : Thresholds)
    (s : BotStatus) (freeFloor : Rat) (hm : m.reachable = true)
    (hr : s.reachable = true) (hs : s.synced = true)
    (hi : ¬ (s.service_state = "INFERENCE" ∧ s.inference_running = false))
    (hu : s.unhealthy.length ≤ 1) :
    ((∃ l d, (l, "High Disk Usage", d) ∈ check_and_alert m t) ↔
        (t.disk_threshold : Rat) ≤ m.disk_percent) ∧
      check_alerts_node s freeFloor =
        (match s.disk_free_gb with
         | some g => if g ≤ freeFloor then ["disk_free"] else []
         | none => []) := by
  constructor
  · constructor
    · rintro ⟨l, d, hmem⟩
      rw [mem_check_and_alert_reachable m t hm] at hmem
      simp only [Prod.mk.injEq] at hmem
      rcases hmem with ⟨-, -, he, -⟩ | ⟨-, -, he, -⟩ | ⟨-, -, he, -⟩ | ⟨hd, -⟩ | hg
      · exact absurd he (by decide)
      · exact absurd he (by decide)
      · exact absurd he (by decide)
      · exact hd
      · obtain ⟨i, temp, he⟩ := mem_gpuTempAlerts _ _ _ hg
        simp only [Prod.mk.injEq] at he
        exact absurd he.2.1.symm (gpuTitle_ne_short i _ (by decide))
    · intro hd
      refine ⟨AlertLevel.warning, diskDetails m.disk_percent t.disk_threshold, ?_⟩
      rw [mem_check_and_alert_reachable m t hm]
      exact Or.inr (Or.inr (Or.inr (Or.inl ⟨hd, rfl⟩)))
  · rw [check_alerts_node, if_neg (by simp [hr]), if_neg (by simp [hs]), if_neg hi,
      if_neg (not_lt.mpr hu)]
    simp

/-- The spec scenario status: reachable, synced, inference healthy, disk
at 50 percent, 10 GB free. -/
def scenarioStatus : BotStatus :=
  { reachable := true, disk := some 50, disk_free_gb := some 10, synced := true,
    service_state := "INFERENCE", inference_running := true, unhealthy := [] }

/-- The spec scenario snapshot on the monitor side: reachable, disk at 50
percent. -/
def scenarioMetrics : NodeMetrics :=
  { node_name := "node1", host := "h", reachable := true, disk_percent := 50 }

/-- C5 witness: the spec scenario — monitor snapshot at 50 percent disk
(below the 90 default threshold, no disk candidate), and a bot status with
10 GB free against a 15 GB floor whose alert list is exactly the
free-space alert. -/
theorem disk_rules_split_across_evaluators_witness :
    ((∃ l d, (l, "High Disk Usage", d) ∈ check_and_alert scenarioMetrics {}) ↔
      ((({} : Thresholds).disk_threshold : Rat) ≤ scenarioMetrics.disk_percent)) ∧
      check_alerts_node scenarioStatus 15 =
        (match scenarioStatus.disk_free_gb with
         | some g => if g ≤ (15 : Rat) then ["disk_free"] else []
         | none => []) :=
  disk_rules_split_across_evaluators scenarioMetrics {} scenarioStatus 15
    rfl rfl rfl (by decide) (by decide)
